import Mathlib

/-!
Verification of the environmental-assessment aggregation engine
(`src/components/EnvironmentalDataLoader.tsx` and the Netlify functions).

The engine is embedded shallowly:

* JavaScript numbers that carry distances, thresholds and parsed field values
  are modelled as rationals (`ℚ`); the one place where `parseFloat` can yield
  `NaN` is modelled explicitly by the `JSNum` type.
* `Array.prototype.filter` / `.map` / `.sort` / `.slice` become `List.filter`,
  `List.map`, `List.mergeSort` and `List.take`.
* A `try`/`catch` adapter boundary becomes an `Except String` value.
* The haversine `calculateDistance` uses transcendental functions, so it is
  modelled separately over `ℝ`; the record pipelines take the (origin-applied)
  distance function as an explicit parameter.
-/

namespace EnvAssess

/-- The three-tier risk label `'High' | 'Medium' | 'Low'`. -/
inductive Risk where
  | High
  | Medium
  | Low
deriving DecidableEq, Repr

/-- Risk classifier for CERCLIS contaminated sites, from
`riskLevel: distance < 0.5 ? 'High' : distance < 1.0 ? 'Medium' : 'Low'`
(`EnvironmentalDataLoader.tsx` line 340). -/
def cerclisRisk (distance : ℚ) : Risk :=
  if distance < 1/2 then .High else if distance < 1 then .Medium else .Low

/-- Risk classifier for leaking-underground-storage-tank (LUST) sites, from
`riskLevel: distance < 0.25 ? 'High' : distance < 0.5 ? 'Medium' : 'Low'`
(`EnvironmentalDataLoader.tsx` line 376). -/
def lustRisk (distance : ℚ) : Risk :=
  if distance < 1/4 then .High else if distance < 1/2 then .Medium else .Low

/-- Risk classifier for toxic-release (TRI) facilities, from
`riskLevel: distance < 1 ? 'High' : distance < 5 ? 'Medium' : 'Low'`
in `loadTRIData` (`EnvironmentalDataLoader.tsx` line 868). -/
def triRisk (distance : ℚ) : Risk :=
  if distance < 1 then .High else if distance < 5 then .Medium else .Low

/-- JavaScript `someString || defaultString`: the default is used when the
field is absent (`none`) or the empty string (falsy). -/
def jsOrString (s : Option String) (dflt : String) : String :=
  match s with
  | none => dflt
  | some t => if t = "" then dflt else t

/-- JavaScript `parseFloat(x) || 0`: a `parseFloat` result is `none` when the
text does not parse (`NaN`), and `NaN || 0` as well as `0 || 0` are `0`. -/
def jsOrZero (q : Option ℚ) : ℚ :=
  match q with
  | none => 0
  | some x => x

/-- Raw SDWIS water-violation row, with exactly the fields the loader reads
(`EnvironmentalDataLoader.tsx` lines 399-411).  Field values are `Option`s
because the upstream rows are loosely typed; a numeric field is `none` when
`parseFloat` of it would be `NaN`. -/
structure WaterRaw where
  PWS_NAME : Option String
  VIOLATION_CATEGORY_CODE : Option String
  CONTAMINANT_CODE : Option String
  ANALYTICAL_RESULT_VALUE : Option ℚ
  MCL_VALUE : Option ℚ
  VIOLATION_DATE : Option String
  HEALTH_BASED_IND : Option String
deriving DecidableEq, Repr

/-- Normalized water violation record (`interface WaterViolation`). -/
structure WaterViolation where
  systemName : String
  violationType : String
  contaminant : String
  level : ℚ
  mcl : ℚ
  date : String
  riskLevel : Risk
deriving DecidableEq, Repr

/-- Mapping of one raw water row to a `WaterViolation`, translated from the
`.map(violation => ...)` body at `EnvironmentalDataLoader.tsx` lines 401-409;
in particular `riskLevel: violation.HEALTH_BASED_IND === 'Y' ? 'High' :
'Medium'` (line 408). -/
def mapWaterViolation (v : WaterRaw) : WaterViolation :=
  { systemName := jsOrString v.PWS_NAME "Public Water System"
    violationType := jsOrString v.VIOLATION_CATEGORY_CODE "Unknown"
    contaminant := (v.CONTAMINANT_CODE).getD ""
    level := jsOrZero v.ANALYTICAL_RESULT_VALUE
    mcl := jsOrZero v.MCL_VALUE
    date := (v.VIOLATION_DATE).getD ""
    riskLevel := if v.HEALTH_BASED_IND = some "Y" then .High else .Medium }

/-- JavaScript truthiness of a string-valued field: present and non-empty. -/
def truthyString (s : Option String) : Bool :=
  match s with
  | none => false
  | some t => !(t = "")

/-- The water-violation guard
`.filter(violation => violation.VIOLATION_DATE && violation.CONTAMINANT_CODE)`
(`EnvironmentalDataLoader.tsx` line 400) followed by the per-row mapping.
The subsequent sort by date and `.slice(0, 10)` reorder and truncate the list
but leave every individual record unchanged. -/
def mapWaterViolations (rows : List WaterRaw) : List WaterViolation :=
  (rows.filter (fun v => truthyString v.VIOLATION_DATE &&
    truthyString v.CONTAMINANT_CODE)).map mapWaterViolation

/-- Normalized site record, the claim-relevant projection of
`interface ContaminationSite`. -/
structure ContaminationSite where
  name : String
  status : String
  distance : ℚ
  riskLevel : Risk
deriving DecidableEq, Repr

/-- Boolean distance comparator used by every per-category
`.sort((a, b) => a.distance - b.distance)` call. -/
def distLE (a b : ContaminationSite) : Bool :=
  a.distance ≤ b.distance

/-- The per-category geofilter pipeline
`.filter(site => site.distance <= radius).sort((a, b) => a.distance -
b.distance).slice(0, cap)` (`EnvironmentalDataLoader.tsx` lines 343-345 with
`radius = 2.0, cap = 10`; lines 379-381 with `1.0, 5`; lines 445-447 with
`3.0, 15`; `loadTRIData` applies the same shape with `15, 20`). -/
def filterWithinRadius (radius : ℚ) (cap : ℕ) (sites : List ContaminationSite) :
    List ContaminationSite :=
  (((sites.filter (fun s => s.distance ≤ radius)).mergeSort distLE).take cap)

theorem distLE_trans (a b c : ContaminationSite) :
    distLE a b → distLE b c → distLE a c := by
  simp only [distLE, decide_eq_true_eq]
  exact le_trans

theorem distLE_total (a b : ContaminationSite) : distLE a b || distLE b a := by
  simp only [distLE, Bool.or_eq_true, decide_eq_true_eq]
  exact le_total a.distance b.distance

/-- Result of JavaScript `parseFloat` on a cell: either a number or `NaN`. -/
inductive JSNum where
  | nan
  | val (q : ℚ)
deriving DecidableEq, Repr

/-- One data row of the TRI bulk CSV extract, after `parseCSVLine` and cell
lookup, carrying exactly what the `loadTRIData` loop reads:
`tooShort` models `values.length < Math.max(latIndex, lonIndex,
facilityNameIndex) + 1` (line 841); `name` is `values[facilityNameIndex]`
(`none` when the cell is absent); `lat` and `lon` are
`parseFloat(values[latIndex] || '0')` and `parseFloat(values[lonIndex] ||
'0')` (lines 845-846), so a missing coordinate cell surfaces as `val 0`. -/
structure TRIRow where
  tooShort : Bool
  name : Option String
  lat : JSNum
  lon : JSNum
deriving DecidableEq, Repr

/-- Processing of a single TRI CSV row into an optional site, translated from
the loop body of `loadTRIData` (`EnvironmentalDataLoader.tsx` lines 838-878):
short rows are skipped, zero or `NaN` coordinates are skipped, the distance
to the query location is computed, and only facilities within 15 miles are
kept, classified by `triRisk`.  `dist` is `calculateDistance(location.lat,
location.lng, ·, ·)`, the haversine distance from the query origin. -/
def rowToSite (dist : ℚ → ℚ → ℚ) (row : TRIRow) : Option ContaminationSite :=
  if row.tooShort then none
  else
    match row.lat, row.lon with
    | JSNum.val la, JSNum.val lo =>
        if la = 0 ∨ lo = 0 then none
        else
          if dist la lo ≤ 15 then
            some { name := jsOrString row.name "Unknown Facility"
                   status := "Active Reporter"
                   distance := dist la lo
                   riskLevel := triRisk (dist la lo) }
          else none
    | _, _ => none

/-- The TRI bulk-extract adapter pipeline of `loadTRIData`
(`EnvironmentalDataLoader.tsx` lines 826-885): scan at most 1000 data rows
(`processed < 1000`), convert each row via `rowToSite` skipping invalid ones,
then `sort((a, b) => a.distance - b.distance).slice(0, 20)`. -/
def loadTRIData (dist : ℚ → ℚ → ℚ) (rows : List TRIRow) : List ContaminationSite :=
  ((((rows.take 1000).filterMap (rowToSite dist)).mergeSort distLE).take 20)

theorem rowToSite_distance_le {dist : ℚ → ℚ → ℚ} {row : TRIRow}
    {s : ContaminationSite} (h : rowToSite dist row = some s) :
    s.distance ≤ 15 := by
  unfold rowToSite at h
  rcases row with ⟨ts, nm, la, lo⟩
  cases la <;> cases lo <;> simp_all
  obtain ⟨-, -, hle, heq⟩ := h
  subst heq
  exact hle

theorem pairwise_distLE_of_mergeSort (l : List ContaminationSite) :
    (l.mergeSort distLE).Pairwise (fun a b => a.distance ≤ b.distance) := by
  have h := @List.sorted_mergeSort ContaminationSite distLE distLE_trans distLE_total l
  exact h.imp (fun hab => by simpa [distLE] using hab)

/-- C1: each per-category filter-then-sort pipeline returns only records
within the given radius of the origin and in non-decreasing order of
distance; in particular this holds for `filterWithinRadius` at any radius
and cap, and for the TRI adapter pipeline with its 15-mile radius. -/
theorem geofilter_spec (radius : ℚ) (cap : ℕ) (sites : List ContaminationSite)
    (dist : ℚ → ℚ → ℚ) (rows : List TRIRow) :
    (∀ s ∈ filterWithinRadius radius cap sites, s.distance ≤ radius) ∧
    (filterWithinRadius radius cap sites).Pairwise
      (fun a b => a.distance ≤ b.distance) ∧
    (∀ s ∈ loadTRIData dist rows, s.distance ≤ 15) ∧
    (loadTRIData dist rows).Pairwise (fun a b => a.distance ≤ b.distance) := by
  refine ⟨?_, ?_, ?_, ?_⟩
  · intro s hs
    unfold filterWithinRadius at hs
    have h1 := List.mem_of_mem_take hs
    rw [List.mem_mergeSort] at h1
    have h2 := List.mem_filter.mp h1
    simpa using h2.2
  · exact (pairwise_distLE_of_mergeSort _).sublist (List.take_sublist _ _)
  · intro s hs
    unfold loadTRIData at hs
    have h1 := List.mem_of_mem_take hs
    rw [List.mem_mergeSort] at h1
    obtain ⟨row, -, hrow⟩ := List.mem_filterMap.mp h1
    exact rowToSite_distance_le hrow
  · exact (pairwise_distLE_of_mergeSort _).sublist (List.take_sublist _ _)

/-- Witness: the geofilter theorem applied to a concrete two-site list with
radius 1 bounds the distance of the one record it returns. -/
theorem geofilter_spec_witness :
    (⟨"A", "Active", 1/2, Risk.High⟩ : ContaminationSite).distance ≤ 1 := by
  have hmem : (⟨"A", "Active", 1/2, Risk.High⟩ : ContaminationSite) ∈
      filterWithinRadius 1 10 [⟨"A", "Active", 1/2, Risk.High⟩,
        ⟨"B", "Active", 3, Risk.Low⟩] := by
    norm_num [filterWithinRadius, List.filter, List.mergeSort, distLE]
  exact (geofilter_spec 1 10 [⟨"A", "Active", 1/2, Risk.High⟩,
    ⟨"B", "Active", 3, Risk.Low⟩] (fun _ _ => 0) []).1 _ hmem

/-- C2: the risk classifier is a deterministic function of (distance,
category); contaminated sites are High below 0.5 miles, Medium below 1.0,
otherwise Low; LUST sites are High below 0.25 and Medium below 0.5; TRI
facilities are High below 1 and Medium below 5; every comparison is strict,
so a distance exactly at a High threshold classifies as Medium. -/
theorem riskClassifier_spec (d : ℚ) :
    (cerclisRisk d = .High ↔ d < 1/2) ∧
    (cerclisRisk d = .Medium ↔ 1/2 ≤ d ∧ d < 1) ∧
    (cerclisRisk d = .Low ↔ 1 ≤ d) ∧
    (lustRisk d = .High ↔ d < 1/4) ∧
    (lustRisk d = .Medium ↔ 1/4 ≤ d ∧ d < 1/2) ∧
    (lustRisk d = .Low ↔ 1/2 ≤ d) ∧
    (triRisk d = .High ↔ d < 1) ∧
    (triRisk d = .Medium ↔ 1 ≤ d ∧ d < 5) ∧
    (triRisk d = .Low ↔ 5 ≤ d) ∧
    cerclisRisk (1/2) = .Medium ∧
    lustRisk (1/4) = .Medium ∧
    triRisk 1 = .Medium := by
  refine ⟨?_, ?_, ?_, ?_, ?_, ?_, ?_, ?_, ?_, by norm_num [cerclisRisk],
    by norm_num [lustRisk], by norm_num [triRisk]⟩ <;>
    simp only [cerclisRisk, lustRisk, triRisk] <;>
    split_ifs <;> simp_all <;> linarith

/-- Witness: the classifier theorem instantiated at distance 0. -/
theorem riskClassifier_spec_witness : cerclisRisk 0 = Risk.High :=
  (riskClassifier_spec 0).1.mpr (by norm_num)

/-- C4: a water-violation record is classified High exactly when it carries
the health-based indicator `HEALTH_BASED_IND === 'Y'`; otherwise it is
Medium, never Low; and records agreeing on `HEALTH_BASED_IND` receive the
same risk no matter what any other (e.g. measured-level) field holds. -/
theorem waterRisk_spec (v : WaterRaw) :
    ((mapWaterViolation v).riskLevel = .High ↔ v.HEALTH_BASED_IND = some "Y") ∧
    ((mapWaterViolation v).riskLevel = .Medium ↔ v.HEALTH_BASED_IND ≠ some "Y") ∧
    (mapWaterViolation v).riskLevel ≠ .Low ∧
    (∀ w : WaterRaw, w.HEALTH_BASED_IND = v.HEALTH_BASED_IND →
      (mapWaterViolation w).riskLevel = (mapWaterViolation v).riskLevel) := by
  refine ⟨?_, ?_, ?_, fun w hw => ?_⟩
  · simp only [mapWaterViolation]; split_ifs <;> simp_all
  · simp only [mapWaterViolation]; split_ifs <;> simp_all
  · simp only [mapWaterViolation]; split_ifs <;> simp_all
  · simp only [mapWaterViolation, hw]

/-- Witness: a record carrying the indicator classifies High. -/
theorem waterRisk_spec_witness :
    (mapWaterViolation ⟨some "SYS", some "MCL", some "1040", some 12, some 10,
      some "2024-01-15", some "Y"⟩).riskLevel = Risk.High :=
  (waterRisk_spec _).1.mpr rfl

/-- The duplicate criterion of the deduplicator:
`f.name === facility.name && Math.abs(f.distance - facility.distance) < 0.1`
(`EnvironmentalDataLoader.tsx` line 951). -/
def sameFacility (f x : ContaminationSite) : Bool :=
  decide (f.name = x.name ∧ |f.distance - x.distance| < 1/10)

/-- The deduplicator, translated directly from
`toxicFacilities.filter((facility, index, self) => index ===
self.findIndex(f => f.name === facility.name && Math.abs(f.distance -
facility.distance) < 0.1))` (`EnvironmentalDataLoader.tsx` lines 950-952):
an element is kept exactly when the first element of the whole list that
matches it is the element itself. -/
def dedupe (xs : List ContaminationSite) : List ContaminationSite :=
  (xs.enum.filter
    (fun p => xs.findIdx (fun f => sameFacility f p.2) == p.1)).map Prod.snd

/-- Recursive reference form of the deduplicator: scan left to right keeping
an element exactly when no element seen so far (kept or dropped) matches it. -/
def dedupeAux : List ContaminationSite → List ContaminationSite →
    List ContaminationSite
  | _, [] => []
  | seen, x :: rest =>
    if seen.any (fun f => sameFacility f x) then dedupeAux (seen ++ [x]) rest
    else x :: dedupeAux (seen ++ [x]) rest

theorem sameFacility_refl (x : ContaminationSite) : sameFacility x x = true := by
  simp [sameFacility]

theorem findIdx_sameFacility_append (seen r : List ContaminationSite)
    (x : ContaminationSite) :
    ((seen ++ x :: r).findIdx (fun f => sameFacility f x) == seen.length) =
      !(seen.any (fun f => sameFacility f x)) := by
  rw [List.findIdx_append]
  by_cases h : seen.findIdx (fun f => sameFacility f x) < seen.length
  · have hany : seen.any (fun f => sameFacility f x) = true := by
      rw [List.any_eq_true]
      obtain ⟨y, hy, hp⟩ := List.findIdx_lt_length.mp h
      exact ⟨y, hy, hp⟩
    simp [h, hany, Nat.ne_of_lt h]
  · have hany : seen.any (fun f => sameFacility f x) = false := by
      rw [List.any_eq_false]
      intro y hy hp
      exact h (List.findIdx_lt_length.mpr ⟨y, hy, hp⟩)
    simp [h, hany, List.findIdx_cons, sameFacility_refl]

theorem dedupeAux_spec :
    ∀ (rest seen : List ContaminationSite),
      dedupeAux seen rest =
        ((rest.enumFrom seen.length).filter
          (fun p => (seen ++ rest).findIdx (fun f => sameFacility f p.2) ==
            p.1)).map Prod.snd
  | [], seen => by simp [dedupeAux]
  | x :: r, seen => by
    have ih := dedupeAux_spec r (seen ++ [x])
    rw [List.append_assoc, List.singleton_append] at ih
    have hlen : (seen ++ [x]).length = seen.length + 1 := by simp
    rw [hlen] at ih
    by_cases hany : seen.any (fun f => sameFacility f x) = true
    · have hkey := findIdx_sameFacility_append seen r x
      rw [hany] at hkey
      simp only [dedupeAux, hany, if_true, List.enumFrom_cons, List.filter_cons,
        hkey, Bool.not_true, ih]
      simp
    · replace hany := Bool.of_not_eq_true hany
      have hkey := findIdx_sameFacility_append seen r x
      rw [hany] at hkey
      simp only [dedupeAux, hany, Bool.false_eq_true, if_false,
        List.enumFrom_cons, List.filter_cons, hkey, Bool.not_false, List.map_cons,
        ih]
      simp

theorem dedupe_eq_dedupeAux (xs : List ContaminationSite) :
    dedupe xs = dedupeAux [] xs := by
  rw [dedupe, dedupeAux_spec xs []]
  simp [List.enum]

theorem dedupeAux_not_seen :
    ∀ (rest seen : List ContaminationSite), ∀ y ∈ dedupeAux seen rest,
      ∀ s ∈ seen, sameFacility s y = false
  | [], _ => by simp [dedupeAux]
  | x :: r, seen => by
    intro y hy s hs
    by_cases hany : seen.any (fun f => sameFacility f x) = true
    · rw [dedupeAux, if_pos hany] at hy
      exact dedupeAux_not_seen r (seen ++ [x]) y hy s (by simp [hs])
    · replace hany := Bool.of_not_eq_true hany
      simp only [dedupeAux, hany, Bool.false_eq_true, if_false] at hy
      rcases List.mem_cons.mp hy with rfl | hy
      · exact Bool.of_not_eq_true (List.any_eq_false.mp hany s hs)
      · exact dedupeAux_not_seen r (seen ++ [x]) y hy s (by simp [hs])

theorem dedupeAux_pairwise :
    ∀ (rest seen : List ContaminationSite),
      (dedupeAux seen rest).Pairwise (fun a b => sameFacility a b = false)
  | [], _ => by simp [dedupeAux]
  | x :: r, seen => by
    by_cases hany : seen.any (fun f => sameFacility f x) = true
    · rw [dedupeAux, if_pos hany]
      exact dedupeAux_pairwise r (seen ++ [x])
    · replace hany := Bool.of_not_eq_true hany
      simp only [dedupeAux, hany, Bool.false_eq_true, if_false]
      refine List.pairwise_cons.mpr ⟨?_, dedupeAux_pairwise r (seen ++ [x])⟩
      intro y hy
      exact dedupeAux_not_seen r (seen ++ [x]) y hy x (by simp)

theorem dedupeAux_eq_self_of_pairwise :
    ∀ (ys seen : List ContaminationSite),
      (∀ y ∈ ys, ∀ s ∈ seen, sameFacility s y = false) →
      ys.Pairwise (fun a b => sameFacility a b = false) →
      dedupeAux seen ys = ys
  | [], _, _, _ => by simp [dedupeAux]
  | x :: r, seen, hseen, hpair => by
    have hany : seen.any (fun f => sameFacility f x) = false :=
      List.any_eq_false.mpr (fun s hs => by
        simp [hseen x (List.mem_cons_self x r) s hs])
    simp only [dedupeAux, hany, Bool.false_eq_true, if_false]
    congr 1
    refine dedupeAux_eq_self_of_pairwise r (seen ++ [x]) ?_
      (List.pairwise_cons.mp hpair).2
    intro y hy s hs
    rcases List.mem_append.mp hs with hs | hs
    · exact hseen y (List.mem_cons_of_mem x hy) s hs
    · rw [List.mem_singleton.mp hs]
      exact (List.pairwise_cons.mp hpair).1 y hy

/-- C10: the deduplicator only removes elements — its output is a
subsequence of its input — and it is idempotent: deduplicating an already
deduplicated list changes nothing. -/
theorem dedupe_sublist_idem (xs : List ContaminationSite) :
    List.Sublist (dedupe xs) xs ∧ dedupe (dedupe xs) = dedupe xs := by
  constructor
  · have h1 : List.Sublist (xs.enum.filter
        (fun p => xs.findIdx (fun f => sameFacility f p.2) == p.1)) xs.enum :=
      List.filter_sublist _
    have h2 := h1.map Prod.snd
    rwa [List.enum_map_snd] at h2
  · rw [dedupe_eq_dedupeAux xs, dedupe_eq_dedupeAux (dedupeAux [] xs)]
    exact dedupeAux_eq_self_of_pairwise (dedupeAux [] xs) [] (by simp)
      (dedupeAux_pairwise xs [])

/-- C3 counterexample: on the three-record list with the shared name and
distances 0, 0.09 and 0.15 miles, the first and third records have equal
names and a distance delta of 0.15 which is not below 0.1, yet only the
first record survives deduplication — the third is not retained, because
the intermediate record at 0.09 is its first in-list match.  This refutes
the claim that records whose deltas are at least 0.1 miles are always both
retained. -/
theorem dedupe_chain_counterexample :
    (⟨"ACME", "Active", 0, Risk.Low⟩ : ContaminationSite).name =
      (⟨"ACME", "Active", 15/100, Risk.Low⟩ : ContaminationSite).name ∧
    ¬ |(⟨"ACME", "Active", 0, Risk.Low⟩ : ContaminationSite).distance -
        (⟨"ACME", "Active", 15/100, Risk.Low⟩ :
          ContaminationSite).distance| < 1/10 ∧
    dedupe [⟨"ACME", "Active", 0, Risk.Low⟩,
      ⟨"ACME", "Active", 9/100, Risk.Low⟩,
      ⟨"ACME", "Active", 15/100, Risk.Low⟩] =
      [⟨"ACME", "Active", 0, Risk.Low⟩] := by
  refine ⟨rfl, by rw [abs_sub_lt_iff]; norm_num, ?_⟩
  rw [dedupe_eq_dedupeAux]
  norm_num [dedupeAux, sameFacility, abs_sub_lt_iff]

/-- C3 (amended): on a two-record list, deduplication keeps only the first
record exactly when the two names are equal and the distance delta is
strictly below 0.1 miles, and keeps both records otherwise; on longer lists
a record is kept exactly when the first record of the list matching it (same
name, delta below 0.1) is the record itself, so transitive chains of matches
can drop a record whose delta to the first survivor is 0.1 or more. -/
theorem dedupe_pair_spec (A B : ContaminationSite) :
    (A.name = B.name ∧ |A.distance - B.distance| < 1/10 →
      dedupe [A, B] = [A]) ∧
    (¬ (A.name = B.name ∧ |A.distance - B.distance| < 1/10) →
      dedupe [A, B] = [A, B]) := by
  constructor <;> intro h
  · have hs : sameFacility A B = true := by
      simp only [sameFacility, decide_eq_true_eq]
      exact h
    simp [dedupe_eq_dedupeAux, dedupeAux, hs]
  · have hs : sameFacility A B = false := by
      simp only [sameFacility, decide_eq_false_iff_not]
      exact h
    simp [dedupe_eq_dedupeAux, dedupeAux, hs]

/-- Witness: two records with the same name and equal distances collapse to
the first record. -/
theorem dedupe_pair_spec_witness :
    dedupe [⟨"X", "Active", 1, Risk.Low⟩, ⟨"X", "Active", 1, Risk.Low⟩] =
      [⟨"X", "Active", 1, Risk.Low⟩] :=
  (dedupe_pair_spec _ _).1 ⟨rfl, by norm_num⟩

/-- Malformed-row criterion of the TRI loop (`EnvironmentalDataLoader.tsx`
lines 841-850): the row has fewer cells than the largest required column
index, or a coordinate is `NaN` or zero (a missing coordinate cell also
parses to zero because of the `|| '0'` fallback). -/
def malformedTRIRow (row : TRIRow) : Prop :=
  row.tooShort = true ∨ row.lat = JSNum.nan ∨ row.lon = JSNum.nan ∨
    row.lat = JSNum.val 0 ∨ row.lon = JSNum.val 0

/-- C8: a malformed TRI row is skipped — it contributes nothing to the
adapter output — and the skip never aborts the scan: the rows before and
after it are processed exactly as if the malformed row were absent, and
(when the row cap is not in play) the whole adapter returns the same result
as on the input without that row. -/
theorem malformedRow_skipped (dist : ℚ → ℚ → ℚ) (row : TRIRow)
    (pre post : List TRIRow) (h : malformedTRIRow row) :
    rowToSite dist row = none ∧
    (pre ++ row :: post).filterMap (rowToSite dist) =
      pre.filterMap (rowToSite dist) ++ post.filterMap (rowToSite dist) ∧
    ((pre ++ row :: post).length ≤ 1000 →
      loadTRIData dist (pre ++ row :: post) = loadTRIData dist (pre ++ post)) := by
  have hnone : rowToSite dist row = none := by
    rcases row with ⟨ts, nm, la, lo⟩
    simp only [malformedTRIRow] at h
    cases la <;> cases lo <;>
      rcases h with h | h | h | h | h <;> simp_all [rowToSite]
  have hfm : (pre ++ row :: post).filterMap (rowToSite dist) =
      pre.filterMap (rowToSite dist) ++ post.filterMap (rowToSite dist) := by
    rw [List.filterMap_append, List.filterMap_cons, hnone]
  refine ⟨hnone, hfm, fun hlen => ?_⟩
  have hlen2 : (pre ++ post).length ≤ 1000 := by
    simp only [List.length_append, List.length_cons] at hlen ⊢
    omega
  unfold loadTRIData
  rw [List.take_of_length_le hlen, List.take_of_length_le hlen2, hfm,
    List.filterMap_append]

/-- Witness: a row whose latitude parses to `NaN` is skipped. -/
theorem malformedRow_skipped_witness :
    rowToSite (fun _ _ => 1) ⟨false, some "F", JSNum.nan, JSNum.val 2⟩ = none :=
  (malformedRow_skipped (fun _ _ => 1) ⟨false, some "F", JSNum.nan, JSNum.val 2⟩
    [] [] (Or.inr (Or.inl rfl))).1

/-- Mocked bulk-extract row for the Baltimore scenario: a facility whose
coordinates put it 0.3 miles from the origin Location
`lat 39.2904, lng -76.6122, state MD`. -/
def scenarioRowA : TRIRow :=
  ⟨false, some "Harborside Chemical", JSNum.val (393/10), JSNum.val (-766/10)⟩

/-- Mocked bulk-extract row for the Baltimore scenario: a facility whose
coordinates put it 20 miles from the origin. -/
def scenarioRowB : TRIRow :=
  ⟨false, some "Western Works", JSNum.val (79/2), JSNum.val (-772/10)⟩

/-- C6: for the Baltimore origin, a bulk extract holding exactly two valid
facilities — one at computed distance 0.3 miles and one at 20 miles — yields
exactly one normalized site, the 0.3-mile facility with risk High; the
20-mile facility is excluded by the 15-mile TRI radius.  `dist` is the
haversine distance from the origin, constrained to the two mocked values. -/
theorem triScenario_spec (dist : ℚ → ℚ → ℚ)
    (hA : dist (393/10) (-766/10) = 3/10) (hB : dist (79/2) (-772/10) = 20) :
    loadTRIData dist [scenarioRowA, scenarioRowB] =
      [⟨"Harborside Chemical", "Active Reporter", 3/10, Risk.High⟩] := by
  unfold loadTRIData
  norm_num at hA hB
  norm_num [scenarioRowA, scenarioRowB, rowToSite, jsOrString, hA, hB, triRisk,
    List.filterMap_cons, List.mergeSort]
  exact fun h => absurd h (by decide)

/-- Concrete mocked distance function realizing the Baltimore scenario. -/
def scenarioDist : ℚ → ℚ → ℚ :=
  fun la _ => if la = 393/10 then 3/10 else 20

/-- Witness: the scenario theorem at the concrete mocked distance function. -/
theorem triScenario_spec_witness :
    loadTRIData scenarioDist [scenarioRowA, scenarioRowB] =
      [⟨"Harborside Chemical", "Active Reporter", 3/10, Risk.High⟩] :=
  triScenario_spec scenarioDist (by norm_num [scenarioDist])
    (by norm_num [scenarioDist])

/-- The aggregate handed to the presentation layer (`setData` payload of
`loadEnvironmentalData`, minus the UI-only `loading` and timestamp fields). -/
structure AggregationResult where
  contaminationSites : List ContaminationSite
  waterViolations : List WaterViolation
  toxicFacilities : List ContaminationSite
  errors : List String
deriving DecidableEq, Repr

/-- Comparator of the water-violation sort
`.sort((a, b) => new Date(b.date).getTime() - new Date(a.date).getTime())`
(`EnvironmentalDataLoader.tsx` line 410); `dateVal` models
`new Date(s).getTime()`. -/
def dateDescLE (dateVal : String → ℚ) (a b : WaterViolation) : Bool :=
  dateVal b.date ≤ dateVal a.date

/-- The four-adapter aggregation orchestrator, translated from the
`loadEnvironmentalData` at `EnvironmentalDataLoader.tsx` lines 307-468.
Each adapter outcome is the settled result of its `try` block: `ok` carries
the fetched, normalized per-source records (the mapping from raw rows to
records with computed distances happens inside the adapter), `error` carries
the exception message.  Each of the four `catch` clauses appends exactly one
descriptive entry to `errors` and leaves the other categories untouched; the
success paths apply the per-category geofilter pipelines
(CERCLIS radius 2 cap 10, LUST radius 1 cap 5 appended to the CERCLIS list,
water sort-by-date-descending cap 10, TRI radius 3 cap 15). -/
def loadEnvironmentalData (dateVal : String → ℚ)
    (cerclis : Except String (List ContaminationSite))
    (lust : Except String (List ContaminationSite))
    (water : Except String (List WaterRaw))
    (tri : Except String (List ContaminationSite)) : AggregationResult :=
  let step1 : List ContaminationSite × List String :=
    match cerclis with
    | .ok sites => (filterWithinRadius 2 10 sites, [])
    | .error e => ([], ["CERCLIS data unavailable: " ++ e])
  let step2 : List ContaminationSite × List String :=
    match lust with
    | .ok sites => (step1.1 ++ filterWithinRadius 1 5 sites, step1.2)
    | .error e => (step1.1, step1.2 ++ ["LUST data unavailable: " ++ e])
  let step3 : List WaterViolation × List String :=
    match water with
    | .ok rows =>
        (((mapWaterViolations rows).mergeSort (dateDescLE dateVal)).take 10,
          step2.2)
    | .error e => ([], step2.2 ++ ["Water quality data unavailable: " ++ e])
  let step4 : List ContaminationSite × List String :=
    match tri with
    | .ok sites => (filterWithinRadius 3 15 sites, step3.2)
    | .error e => ([], step3.2 ++ ["TRI facility data unavailable: " ++ e])
  { contaminationSites := step2.1
    waterViolations := step3.1
    toxicFacilities := step4.1
    errors := step4.2 }

/-- The two-adapter orchestrator of the newest revision
(`EnvironmentalDataLoader.tsx` lines 893-962): adapter 1 is the TRI CSV
bulk extract (`loadTRIData`), adapter 2 the Netlify API fetch returning
superfund sites, water violations, and extra TRI sites which are appended
with their risk overridden to Medium; the combined TRI list is then
deduplicated (`uniqueToxicFacilities`, lines 950-952). -/
def loadEnvironmentalDataV3
    (tri : Except String (List ContaminationSite))
    (api : Except String
      (List ContaminationSite × List WaterViolation × List ContaminationSite)) :
    AggregationResult :=
  let t1 : List ContaminationSite × List String :=
    match tri with
    | .ok sites => (sites, [])
    | .error e => ([], ["TRI data unavailable: " ++ e])
  let t2 : (List ContaminationSite × List WaterViolation ×
      List ContaminationSite) × List String :=
    match api with
    | .ok result =>
        ((result.1, result.2.1,
          t1.1 ++ result.2.2.map (fun s => { s with riskLevel := .Medium })),
          t1.2)
    | .error e =>
        (([], [], t1.1), t1.2 ++ ["API data partially unavailable: " ++ e])
  { contaminationSites := t2.1.1
    waterViolations := t2.1.2.1
    toxicFacilities := dedupe t2.1.2.2
    errors := t2.2 }

/-- C5: when every adapter fails, the aggregation still returns a
well-formed result whose site lists are all empty and whose error list has
exactly one descriptive entry per adapter, in adapter order — four entries
for the four-adapter orchestrator and two for the two-adapter revision; the
orchestrators are total functions, so no failure escapes the run. -/
theorem allAdaptersFail_spec (dateVal : String → ℚ) (e1 e2 e3 e4 f1 f2 : String) :
    loadEnvironmentalData dateVal (.error e1) (.error e2) (.error e3) (.error e4) =
      { contaminationSites := []
        waterViolations := []
        toxicFacilities := []
        errors := ["CERCLIS data unavailable: " ++ e1,
          "LUST data unavailable: " ++ e2,
          "Water quality data unavailable: " ++ e3,
          "TRI facility data unavailable: " ++ e4] } ∧
    (loadEnvironmentalData dateVal
      (.error e1) (.error e2) (.error e3) (.error e4)).errors.length = 4 ∧
    loadEnvironmentalDataV3 (.error f1) (.error f2) =
      { contaminationSites := []
        waterViolations := []
        toxicFacilities := []
        errors := ["TRI data unavailable: " ++ f1,
          "API data partially unavailable: " ++ f2] } ∧
    (loadEnvironmentalDataV3 (.error f1) (.error f2)).errors.length = 2 := by
  refine ⟨rfl, rfl, ?_, rfl⟩
  simp [loadEnvironmentalDataV3, dedupe]

/-- Lifecycle event of one adapter fetch inside an aggregation run. -/
inductive FetchEvent where
  | start (i : ℕ)
  | settle (i : ℕ)
deriving DecidableEq, Repr

/-- Adapter lifecycle trace of `loadEnvironmentalData`
(`EnvironmentalDataLoader.tsx` lines 315-453): the four `try` blocks run in
sequence, each `await callNetlifyAPI(...)` launching its fetch (adapter 0 =
CERCLIS, 1 = LUST, 2 = water, 3 = TRI) and suspending until it settles —
fulfilled or rejected, the `catch` absorbing a rejection — before the next
block runs, so each settle event precedes the next start event. -/
def orchestratorTrace : List FetchEvent :=
  [.start 0, .settle 0, .start 1, .settle 1, .start 2, .settle 2,
    .start 3, .settle 3]

/-- Concurrent fan-out as the spec describes it: every adapter fetch is
launched before any fetch settles. -/
def concurrentFanOut (t : List FetchEvent) (n : ℕ) : Prop :=
  ∀ i < n, ∀ j < n,
    t.indexOf (FetchEvent.start i) < t.indexOf (FetchEvent.settle j)

/-- Sequential execution in which every adapter nevertheless runs to
settlement: each adapter starts and settles within the run, it settles
after it starts, and it settles before the next adapter starts. -/
def sequentialSettleAll (t : List FetchEvent) (n : ℕ) : Prop :=
  ∀ i < n, FetchEvent.start i ∈ t ∧ FetchEvent.settle i ∈ t ∧
    t.indexOf (FetchEvent.start i) < t.indexOf (FetchEvent.settle i) ∧
    (i + 1 < n →
      t.indexOf (FetchEvent.settle i) < t.indexOf (FetchEvent.start (i + 1)))

/-- C9 counterexample: the orchestrator's fetches are not launched
concurrently — the LUST fetch (adapter 1) starts only after the CERCLIS
fetch (adapter 0) has settled, refuting the claim that all fetches are
launched before any settles. -/
theorem orchestrator_not_concurrent : ¬ concurrentFanOut orchestratorTrace 4 := by
  unfold concurrentFanOut
  decide

/-- C9 (amended): the orchestrator invokes the four adapter fetches
sequentially — each is awaited to settlement, success or failure, before
the next is launched — and every adapter is always invoked and awaited, so
an earlier failure never short-circuits the later fetches. -/
theorem orchestrator_sequential_settles_all :
    sequentialSettleAll orchestratorTrace 4 := by
  unfold sequentialSettleAll
  decide

/-- JavaScript `Math.atan2(y, x)` over the reals (signed zeros and
infinities aside): the angle of the point `(x, y)`, computed piecewise from
`Real.arctan` exactly as the IEEE special-case table prescribes for finite
arguments. -/
noncomputable def atan2 (y x : ℝ) : ℝ :=
  if 0 < x then Real.arctan (y / x)
  else if x < 0 then
    (if 0 ≤ y then Real.arctan (y / x) + Real.pi
     else Real.arctan (y / x) - Real.pi)
  else
    (if 0 < y then Real.pi / 2 else if y < 0 then -(Real.pi / 2) else 0)

/-- The haversine great-circle distance `calculateDistance(lat1, lon1, lat2,
lon2)` with Earth radius 3959 miles (`EnvironmentalDataLoader.tsx` lines
470-479 and 747-756), modelled over the real numbers. -/
noncomputable def calculateDistance (lat1 lon1 lat2 lon2 : ℝ) : ℝ :=
  let R : ℝ := 3959
  let dLat := (lat2 - lat1) * Real.pi / 180
  let dLon := (lon2 - lon1) * Real.pi / 180
  let a := Real.sin (dLat / 2) * Real.sin (dLat / 2) +
    Real.cos (lat1 * Real.pi / 180) * Real.cos (lat2 * Real.pi / 180) *
      (Real.sin (dLon / 2) * Real.sin (dLon / 2))
  let c := 2 * atan2 (Real.sqrt a) (Real.sqrt (1 - a))
  R * c

theorem sin_half_sq_neg (u v : ℝ) :
    Real.sin ((u - v) * Real.pi / 180 / 2) *
      Real.sin ((u - v) * Real.pi / 180 / 2) =
    Real.sin ((v - u) * Real.pi / 180 / 2) *
      Real.sin ((v - u) * Real.pi / 180 / 2) := by
  have h : (u - v) * Real.pi / 180 / 2 = -((v - u) * Real.pi / 180 / 2) := by
    ring
  rw [h, Real.sin_neg]
  ring

/-- C7: in the real-number semantics of the haversine formula, the distance
from any coordinate pair to itself is exactly 0, and the distance is
symmetric in its two coordinate pairs — both facts hold exactly, hence in
particular within any floating-point tolerance. -/
theorem calculateDistance_zero_symm (lat1 lon1 lat2 lon2 : ℝ) :
    calculateDistance lat1 lon1 lat1 lon1 = 0 ∧
    calculateDistance lat1 lon1 lat2 lon2 =
      calculateDistance lat2 lon2 lat1 lon1 := by
  constructor
  · simp only [calculateDistance, atan2, sub_self, zero_mul, zero_div,
      Real.sin_zero, mul_zero, zero_add, add_zero, Real.sqrt_zero, sub_zero,
      Real.sqrt_one]
    norm_num [Real.arctan_zero]
  · simp only [calculateDistance]
    rw [sin_half_sq_neg lat2 lat1, sin_half_sq_neg lon2 lon1,
      mul_comm (Real.cos (lat1 * Real.pi / 180)) (Real.cos (lat2 * Real.pi / 180))]

end EnvAssess
